import Mathlib

/-!
Verification of the Bluesky social-graph explorer
(`bluesky_social_graph.py`): a shallow embedding of its data model,
pagination loop, derived-set computations, exporters and CLI control
flow, with theorems settling the specified properties.
-/

set_option maxHeartbeats 1000000

/-- Fixed base URL of the public endpoint (`PUBLIC_API`). -/
def PUBLIC_API : String := "https://public.api.bsky.app/xrpc"

/-- Fixed base URL of the authenticated endpoint (`AUTH_API`). -/
def AUTH_API : String := "https://bsky.social/xrpc"

/-- Page-size bound sent with each paginated request (`PAGE_LIMIT`). -/
def PAGE_LIMIT : Nat := 100

/-- Profile dataclass: identity plus aggregate counters. -/
structure Profile where
  did : String
  handle : String
  display_name : String := ""
  description : String := ""
  followers_count : Nat := 0
  follows_count : Nat := 0
  posts_count : Nat := 0
deriving DecidableEq, Repr

/-- GraphEntry dataclass: one identity record of a follower / follow list. -/
structure GraphEntry where
  did : String
  handle : String
  display_name : String := ""
  description : String := ""
  indexed_at : String := ""
deriving DecidableEq, Repr

/-- SocialGraph dataclass: subject, optional profile snapshot, the two
fetched lists and the derived mutuals list. -/
structure SocialGraph where
  actor : String
  profile : Option Profile := none
  followers : List GraphEntry := []
  follows : List GraphEntry := []
  mutuals : List GraphEntry := []
deriving DecidableEq, Repr

/-- A raw JSON item of a paginated list response: `did` and `handle` are
accessed with `item["did"]` / `item["handle"]` (absence raises), the rest
with `.get(..., "")`. Each field is `Option` to model presence/absence. -/
structure RawItem where
  did : Option String
  handle : Option String
  displayName : Option String
  description : Option String
  indexedAt : Option String
deriving DecidableEq, Repr

/-- Build a `GraphEntry` from a raw item, as the loop body of
`_paginate` does: `did`/`handle` are required (a missing key raises,
modelled as `none`), the optional fields default to the empty string. -/
def entryOfItem (item : RawItem) : Option GraphEntry :=
  match item.did, item.handle with
  | some d, some h =>
      some { did := d, handle := h,
             display_name := item.displayName.getD "",
             description := item.description.getD "",
             indexed_at := item.indexedAt.getD "" }
  | _, _ => none

/-- Convert one page's raw item list to graph entries, appending each in
order and failing on the first item whose required keys are missing,
exactly as the `for item in data.get(key, [])` loop of `_paginate`. -/
def parseItems : List RawItem → Option (List GraphEntry)
  | [] => some []
  | i :: is =>
    match entryOfItem i, parseItems is with
    | some e, some es => some (e :: es)
    | _, _ => none

/-- One service response to a paginated request: the item list under the
response key, and the optional continuation cursor. -/
structure Page where
  items : List RawItem
  cursor : Option String
deriving DecidableEq, Repr

/-- Python truthiness test `if not cursor: break` on the value of
`data.get("cursor")`: the loop stops when the cursor is absent or the
empty string. -/
def cursorDone : Option String → Bool
  | none => true
  | some s => s.isEmpty

/-- The accumulation loop of `_paginate`, run against a finite sequence
of service responses: each page's items are converted and appended, and
the loop stops after the first page whose cursor is absent or falsy.
`none` means the loop failed (bad item) or ran past the supplied
responses without ever seeing a final page (non-termination). -/
def paginate : List Page → Option (List GraphEntry)
  | [] => none
  | p :: ps =>
    match parseItems p.items with
    | none => none
    | some es =>
      if cursorDone p.cursor then some es
      else
        match paginate ps with
        | none => none
        | some rest => some (es ++ rest)

/-- The mutuals computation of `get_social_graph`:
`follower_dids = {f.did for f in followers}` then
`[f for f in follows if f.did in follower_dids]`. -/
def computeMutuals (followers follows : List GraphEntry) : List GraphEntry :=
  follows.filter (fun f => followers.any (fun g => g.did == f.did))

/-- `get_social_graph`, abstracted over the already-fetched profile and
lists: builds the graph value with the derived mutuals list. -/
def get_social_graph (actor : String) (profile : Option Profile)
    (followers follows : List GraphEntry) : SocialGraph :=
  { actor := actor, profile := profile, followers := followers,
    follows := follows, mutuals := computeMutuals followers follows }

/-- Fans, as computed in `print_summary`: followers whose did is not
among the follows' dids. -/
def fans (g : SocialGraph) : List GraphEntry :=
  g.followers.filter (fun f => !(g.follows.any (fun x => x.did == f.did)))

/-- Not-followed-back, as computed in `print_summary`: follows whose did
is not among the followers' dids. -/
def not_followed_back (g : SocialGraph) : List GraphEntry :=
  g.follows.filter (fun f => !(g.followers.any (fun x => x.did == f.did)))

/-- The spec's description of mutuals, written from its words:
"mutuals = \x7b f in follows : f.identifier ∈ set(follower identifiers) \x7d,
preserving the order follows were returned in". -/
def mutualsSpec (followers follows : List GraphEntry) : List GraphEntry :=
  follows.filter (fun f => decide (∃ x ∈ followers, x.did = f.did))

/-- A CSV data row, in the fixed column order of `export_csv`:
relationship, did, handle, display_name, description, indexed_at. -/
structure CsvRow where
  relationship : String
  did : String
  handle : String
  display_name : String
  description : String
  indexed_at : String
deriving DecidableEq, Repr

/-- The header row written by `writer.writeheader()`. -/
def fieldnames : List String :=
  ["relationship", "did", "handle", "display_name", "description", "indexed_at"]

/-- One written CSV row for an entry with the given relationship label. -/
def mkRow (rel : String) (e : GraphEntry) : CsvRow :=
  { relationship := rel, did := e.did, handle := e.handle,
    display_name := e.display_name, description := e.description,
    indexed_at := e.indexed_at }

/-- The data rows written by `export_csv`: a row per follower, labelled
"mutual" when its did is in `mutual_dids` (the dids of `graph.mutuals`),
else "follower"; then a row labelled "following" per follow whose did is
not among the followers' dids (the source's `follow_dids`, built from
`graph.followers`). -/
def csvRows (g : SocialGraph) : List CsvRow :=
  let mutual_dids := g.mutuals.map (fun m => m.did)
  let followerRows :=
    g.followers.map (fun e =>
      mkRow (if mutual_dids.contains e.did then "mutual" else "follower") e)
  let follow_dids := g.followers.map (fun f => f.did)
  let followingRows :=
    (g.follows.filter (fun e => !(follow_dids.contains e.did))).map
      (mkRow "following")
  followerRows ++ followingRows

/-- A JSON value, for the dict built by `export_json` (Python dicts keep
insertion order, so an object is an ordered field list). -/
inductive J where
  | null
  | str (s : String)
  | num (n : Nat)
  | arr (xs : List J)
  | obj (fields : List (String × J))

/-- `asdict` of a `Profile`, in dataclass field order. -/
def profileJson (p : Profile) : J :=
  J.obj [("did", J.str p.did), ("handle", J.str p.handle),
         ("display_name", J.str p.display_name),
         ("description", J.str p.description),
         ("followers_count", J.num p.followers_count),
         ("follows_count", J.num p.follows_count),
         ("posts_count", J.num p.posts_count)]

/-- `asdict` of a `GraphEntry`, in dataclass field order. -/
def entryJson (e : GraphEntry) : J :=
  J.obj [("did", J.str e.did), ("handle", J.str e.handle),
         ("display_name", J.str e.display_name),
         ("description", J.str e.description),
         ("indexed_at", J.str e.indexed_at)]

/-- `asdict(graph.profile) if graph.profile else None`. -/
def profileJsonOpt : Option Profile → J
  | none => J.null
  | some p => profileJson p

/-- The `data` dict built by `export_json` before serialization. -/
def export_json_data (g : SocialGraph) : J :=
  J.obj [("actor", J.str g.actor),
         ("profile", profileJsonOpt g.profile),
         ("followers", J.arr (g.followers.map entryJson)),
         ("follows", J.arr (g.follows.map entryJson)),
         ("mutuals", J.arr (g.mutuals.map entryJson)),
         ("stats", J.obj [("followers_count", J.num g.followers.length),
                          ("follows_count", J.num g.follows.length),
                          ("mutuals_count", J.num g.mutuals.length)])]

/-- Field lookup in a JSON object value. -/
def lookupJ (j : J) (k : String) : Option J :=
  match j with
  | J.obj fs => fs.lookup k
  | _ => none

/-- `export_json(graph, path)`: writes the serialized `data` dict to
`path`.  Modelled as the pair (path written, file content); the content
is the JSON value, since `json.dumps` with fixed options is a function
of it. -/
def export_json (g : SocialGraph) (path : String) : String × J :=
  (path, export_json_data g)

/-- `export_csv(graph, path)`: writes the header and data rows to
`path`.  Modelled as the pair (path written, file content); the content
is the header row plus the data rows, of which the written bytes are a
function. -/
def export_csv (g : SocialGraph) (path : String) :
    String × (List String × List CsvRow) :=
  (path, (fieldnames, csvRows g))

/-- Client state: bearer token, own did, and the `authenticated` flag
set by a successful `_login`. -/
structure ClientState where
  access_token : Option String
  did : Option String
  authenticated : Bool
deriving DecidableEq, Repr

/-- The state of a freshly constructed client, before any login. -/
def initClient : ClientState :=
  { access_token := none, did := none, authenticated := false }

/-- `base_url` property: the authenticated endpoint iff `authenticated`. -/
def base_url (c : ClientState) : String :=
  if c.authenticated then AUTH_API else PUBLIC_API

/-- Python truthiness of an optional CLI string (`if handle and
password:`): present and non-empty. -/
def truthyStr : Option String → Bool
  | none => false
  | some s => !s.isEmpty

/-- `raise_for_status` raises exactly on an error status; per the
client contract this is any non-2xx response. -/
def is2xx (status : Nat) : Bool :=
  200 ≤ status && status < 300

/-- Raw body of the `createSession` response: `_login` reads
`data["accessJwt"]`, `data["did"]` and `data["handle"]`. -/
structure RawLogin where
  accessJwt : Option String
  did : Option String
  handle : Option String
deriving DecidableEq, Repr

/-- Successful `_login` outcome: stores the token and did and sets
`authenticated`; a missing required key raises (modelled `none`). -/
def loginParse (b : RawLogin) : Option ClientState :=
  match b.accessJwt, b.did, b.handle with
  | some jwt, some d, some _ =>
      some { access_token := some jwt, did := some d, authenticated := true }
  | _, _, _ => none

/-- Raw body of the `getProfile` response: `did`/`handle` required, the
rest read with `.get` and a default. -/
structure RawProfile where
  did : Option String
  handle : Option String
  displayName : Option String
  description : Option String
  followersCount : Option Nat
  followsCount : Option Nat
  postsCount : Option Nat
deriving DecidableEq, Repr

/-- The `Profile` built by `get_profile` from a response body: required
`did`/`handle` (absence raises), optional text fields default to the
empty string, counters default to 0. -/
def profileOfRaw (d : RawProfile) : Option Profile :=
  match d.did, d.handle with
  | some di, some h =>
      some { did := di, handle := h,
             display_name := d.displayName.getD "",
             description := d.description.getD "",
             followers_count := d.followersCount.getD 0,
             follows_count := d.followsCount.getD 0,
             posts_count := d.postsCount.getD 0 }
  | _, _ => none

/-- An HTTP request issued by the tool, with the base URL it targets. -/
inductive Req where
  | createSession
  | getProfile (base : String) (actor : String)
  | listPage (base : String) (endpoint : String) (actor : String)
      (cursor : Option String)
deriving DecidableEq, Repr

/-- How a run step fails: an HTTP error status (`raise_for_status`), a
response missing a required key (KeyError), or the modelled response
sequence being exhausted (the loop would keep requesting). -/
inductive Fail where
  | http
  | badData
  | hang
deriving DecidableEq, Repr

/-- One service response to a paginated request, with its HTTP status. -/
structure PageResp where
  status : Nat
  items : List RawItem
  cursor : Option String
deriving DecidableEq, Repr

/-- Behaviour of the remote service for one run: the login response, the
profile response, and the follower/follow page sequences. -/
structure Service where
  loginStatus : Nat
  loginBody : RawLogin
  profileStatus : Nat
  profileBody : RawProfile
  followerPages : List PageResp
  followPages : List PageResp
deriving DecidableEq, Repr

/-- The `_paginate` loop with its request trace: issues one request per
page (carrying the cursor of the previous response), stops with the
accumulated entries at the first falsy cursor, and aborts on a non-2xx
status or a bad item. -/
def paginateGo (base endpoint actor : String) :
    List PageResp → Option String → List Req × Except Fail (List GraphEntry)
  | [], cur => ([Req.listPage base endpoint actor cur], Except.error Fail.hang)
  | p :: ps, cur =>
    let req := Req.listPage base endpoint actor cur
    if is2xx p.status then
      match parseItems p.items with
      | none => ([req], Except.error Fail.badData)
      | some es =>
        if cursorDone p.cursor then ([req], Except.ok es)
        else
          let r := paginateGo base endpoint actor ps p.cursor
          (req :: r.1, r.2.map (fun rest => es ++ rest))
    else ([req], Except.error Fail.http)

/-- `get_social_graph` with its request trace: profile fetch against the
public endpoint, then followers and follows against `base_url`, then
the mutuals computation; any failure aborts the build. -/
def getSocialGraphRun (c : ClientState) (svc : Service) (actor : String) :
    List Req × Except Fail SocialGraph :=
  let preq := Req.getProfile PUBLIC_API actor
  if is2xx svc.profileStatus then
    match profileOfRaw svc.profileBody with
    | none => ([preq], Except.error Fail.badData)
    | some prof =>
      let r1 := paginateGo (base_url c) "app.bsky.graph.getFollowers" actor
        svc.followerPages none
      match r1.2 with
      | Except.error e => (preq :: r1.1, Except.error e)
      | Except.ok fers =>
        let r2 := paginateGo (base_url c) "app.bsky.graph.getFollows" actor
          svc.followPages none
        match r2.2 with
        | Except.error e => (preq :: r1.1 ++ r2.1, Except.error e)
        | Except.ok fws =>
            (preq :: r1.1 ++ r2.1,
             Except.ok (get_social_graph actor (some prof) fers fws))
  else ([preq], Except.error Fail.http)

/-- `BlueskyClient(handle, password)`: logs in iff both credentials are
truthy; a non-2xx login response or a missing response key raises out
of the constructor. -/
def clientInit (handle password : Option String) (svc : Service) :
    List Req × Except Fail ClientState :=
  if truthyStr handle && truthyStr password then
    if is2xx svc.loginStatus then
      match loginParse svc.loginBody with
      | some c => ([Req.createSession], Except.ok c)
      | none => ([Req.createSession], Except.error Fail.badData)
    else ([Req.createSession], Except.error Fail.http)
  else ([], Except.ok initClient)

/-- `main`, as (request trace, exit code): client construction (login
failure propagates uncaught, terminating with code 1), then the graph
build inside the `try` (any error exits 1), then summary/export. -/
def mainRun (handle password : Option String) (actor : String)
    (svc : Service) : List Req × Nat :=
  let r0 := clientInit handle password svc
  match r0.2 with
  | Except.error _ => (r0.1, 1)
  | Except.ok c =>
    let r1 := getSocialGraphRun c svc actor
    match r1.2 with
    | Except.error _ => (r0.1 ++ r1.1, 1)
    | Except.ok _ => (r0.1 ++ r1.1, 0)

/-- Concrete follower A of the spec scenario. -/
def entryA : GraphEntry := { did := "did:plc:aaa", handle := "a.bsky.social" }

/-- Concrete follower B of the spec scenario (also followed). -/
def entryB : GraphEntry := { did := "did:plc:bbb", handle := "b.bsky.social" }

/-- Concrete follower C of the spec scenario. -/
def entryC : GraphEntry := { did := "did:plc:ccc", handle := "c.bsky.social" }

/-- Concrete follow D of the spec scenario (not a follower). -/
def entryD : GraphEntry := { did := "did:plc:ddd", handle := "d.bsky.social" }

lemma any_did_eq_decide (fers : List GraphEntry) (f : GraphEntry) :
    (fers.any (fun g => g.did == f.did))
      = decide (∃ x ∈ fers, x.did = f.did) := by
  rw [Bool.eq_iff_iff]
  simp [List.any_eq_true]

lemma computeMutuals_eq_spec (fers fws : List GraphEntry) :
    computeMutuals fers fws = mutualsSpec fers fws := by
  unfold computeMutuals mutualsSpec
  exact List.filter_congr (fun x _ => any_did_eq_decide fers x)

/-- Claim C1: the mutuals list built by `get_social_graph` is exactly the
follows entries whose did occurs among the followers' dids, in follows
order; hence it is a sublist of follows and every mutual's did is a
follower did. -/
theorem get_social_graph_mutuals (a : String) (pr : Option Profile)
    (fers fws : List GraphEntry) :
    (get_social_graph a pr fers fws).mutuals = mutualsSpec fers fws
    ∧ List.Sublist (get_social_graph a pr fers fws).mutuals fws
    ∧ ∀ m ∈ (get_social_graph a pr fers fws).mutuals,
        ∃ x ∈ fers, x.did = m.did := by
  refine ⟨computeMutuals_eq_spec fers fws, ?_, ?_⟩
  · exact List.filter_sublist fws
  · intro m hm
    have := (List.mem_filter.mp hm).2
    simpa [List.any_eq_true] using this

/-- Witness for C1 at a concrete graph: B is a mutual of the scenario
graph, and the theorem yields a follower with B's did. -/
theorem get_social_graph_mutuals_witness :
    ∃ x ∈ [entryA, entryB, entryC], x.did = entryB.did :=
  (get_social_graph_mutuals "alice.bsky.social" none
      [entryA, entryB, entryC] [entryB, entryD]).2.2 entryB (by decide)

/-- Claim C4: for followers A,B,C and follows B,D with distinct dids,
mutuals = [B], fans = [A, C], not-followed-back = [D]. -/
theorem scenario_derived_sets :
    (get_social_graph "alice.bsky.social" none [entryA, entryB, entryC]
        [entryB, entryD]).mutuals = [entryB]
    ∧ fans (get_social_graph "alice.bsky.social" none [entryA, entryB, entryC]
        [entryB, entryD]) = [entryA, entryC]
    ∧ not_followed_back (get_social_graph "alice.bsky.social" none
        [entryA, entryB, entryC] [entryB, entryD]) = [entryD] := by
  decide

/-- Claim C9: a response whose cursor is the empty string stops the
pagination loop exactly as an omitted cursor does, whatever responses
would follow; the result is that page's items alone. -/
theorem empty_cursor_stops (its : List RawItem) (rest rest2 : List Page) :
    paginate ({ items := its, cursor := some "" } :: rest)
      = paginate ({ items := its, cursor := none } :: rest2)
    ∧ paginate ({ items := its, cursor := some "" } :: rest)
      = parseItems its := by
  have hc : cursorDone (some "") = true := by decide
  have hn : cursorDone none = true := by decide
  constructor <;> · cases hp : parseItems its <;>
                      simp [paginate, hp, hc, hn]

/-- Claim C5: the exported content (the part of the file other than its
path) is a function of the graph value alone: exporting one graph to two
paths yields identical content for both formats. -/
theorem export_deterministic (g : SocialGraph) (p1 p2 : String) :
    (export_json g p1).2 = (export_json g p2).2
    ∧ (export_csv g p1).2 = (export_csv g p2).2 :=
  ⟨rfl, rfl⟩

lemma parseItems_eq_none_iff (its : List RawItem) :
    parseItems its = none ↔ ∃ i ∈ its, entryOfItem i = none := by
  induction its with
  | nil => simp [parseItems]
  | cons i is ih =>
    cases hi : entryOfItem i <;> cases hr : parseItems is <;>
      simp [parseItems, hi, hr] at ih ⊢ <;> tauto

/-- Claim C10: did and handle are required (their absence makes the
item or profile conversion, and with it the fetch, fail), while missing
display name / description / indexedAt default to the empty string and
missing profile counters default to 0; presence of the required keys
guarantees success whatever the optional fields. -/
theorem required_and_optional_fields (d h : String)
    (dn desc ia : Option String) (fc fo pc : Option Nat) :
    (entryOfItem ⟨some d, some h, dn, desc, ia⟩
        = some ⟨d, h, dn.getD "", desc.getD "", ia.getD ""⟩)
    ∧ (∀ item : RawItem,
        entryOfItem item = none ↔ (item.did = none ∨ item.handle = none))
    ∧ (profileOfRaw ⟨some d, some h, dn, desc, fc, fo, pc⟩
        = some ⟨d, h, dn.getD "", desc.getD "", fc.getD 0,
                fo.getD 0, pc.getD 0⟩)
    ∧ (∀ rp : RawProfile,
        profileOfRaw rp = none ↔ (rp.did = none ∨ rp.handle = none))
    ∧ (∀ its : List RawItem,
        parseItems its = none ↔ ∃ i ∈ its, entryOfItem i = none) := by
  refine ⟨rfl, ?_, rfl, ?_, parseItems_eq_none_iff⟩
  · intro item
    obtain ⟨d2, h2, dn2, ds2, ia2⟩ := item
    cases d2 <;> cases h2 <;> simp [entryOfItem]
  · intro rp
    obtain ⟨d2, h2, dn2, ds2, f1, f2, f3⟩ := rp
    cases d2 <;> cases h2 <;> simp [profileOfRaw]

lemma map_did_contains (l : List GraphEntry) (d : String) :
    ((l.map (fun f => f.did)).contains d) = l.any (fun x => x.did == d) := by
  rw [Bool.eq_iff_iff]
  simp [List.contains, List.elem_iff, List.any_eq_true, List.mem_map]

lemma mutual_dids_contains (fers fws : List GraphEntry) (e : GraphEntry)
    (he : e ∈ fers) :
    ((computeMutuals fers fws).map (fun m => m.did)).contains e.did
      = fws.any (fun x => x.did == e.did) := by
  rw [Bool.eq_iff_iff]
  simp [computeMutuals, List.contains, List.elem_iff, List.mem_map,
    List.mem_filter, List.any_eq_true]
  constructor
  · rintro ⟨x, ⟨hxm, _⟩, hxd⟩
    exact ⟨x, hxm, hxd⟩
  · rintro ⟨x, hxm, hxd⟩
    exact ⟨x, ⟨hxm, e, he, hxd.symm⟩, hxd⟩

/-- Claim C3: on a built graph, the CSV data rows are one row per
follower (labelled "mutual" exactly when its did occurs among the
follows, else "follower") followed by one "following" row per follow
whose did is not among the followers; the row count is followers +
(follows − the follows entries that are also followers by did). -/
theorem export_csv_rows (a : String) (pr : Option Profile)
    (fers fws : List GraphEntry) :
    csvRows (get_social_graph a pr fers fws)
      = fers.map (fun e =>
          mkRow (if fws.any (fun x => x.did == e.did) then "mutual"
                 else "follower") e)
        ++ (fws.filter (fun e => !(fers.any (fun x => x.did == e.did)))).map
            (mkRow "following")
    ∧ (csvRows (get_social_graph a pr fers fws)).length
      = fers.length
        + (fws.length
           - (fws.filter (fun e =>
                fers.any (fun x => x.did == e.did))).length) := by
  have hfun : (fun e : GraphEntry => !((fers.map (fun f => f.did)).contains e.did))
      = (fun e => !(fers.any (fun x => x.did == e.did))) := by
    funext e
    rw [map_did_contains fers e.did]
  have h1 : csvRows (get_social_graph a pr fers fws)
      = fers.map (fun e =>
          mkRow (if fws.any (fun x => x.did == e.did) then "mutual"
                 else "follower") e)
        ++ (fws.filter (fun e => !(fers.any (fun x => x.did == e.did)))).map
            (mkRow "following") := by
    show (fers.map (fun e =>
        mkRow (if ((computeMutuals fers fws).map (fun m => m.did)).contains e.did
               then "mutual" else "follower") e))
      ++ ((fws.filter (fun e => !((fers.map (fun f => f.did)).contains e.did))).map
          (mkRow "following")) = _
    rw [hfun]
    congr 1
    exact List.map_congr_left (fun e he => by rw [mutual_dids_contains fers fws e he])
  refine ⟨h1, ?_⟩
  rw [h1]
  have h2 := fws.length_eq_length_filter_add
    (fun e => fers.any (fun x => x.did == e.did))
  simp only [List.length_append, List.length_map]
  omega

lemma parseItems_length : ∀ {its : List RawItem} {es : List GraphEntry},
    parseItems its = some es → es.length = its.length := by
  intro its
  induction its with
  | nil =>
    intro es h
    simp [parseItems] at h
    simp [← h]
  | cons i is ih =>
    intro es h
    cases hi : entryOfItem i <;> cases hr : parseItems is <;>
      simp [parseItems, hi, hr] at h
    simp [← h, ih hr]

lemma parseItems_isSome (its : List RawItem)
    (h : ∀ i ∈ its, (entryOfItem i).isSome = true) :
    ∃ es, parseItems its = some es := by
  induction its with
  | nil => exact ⟨[], rfl⟩
  | cons i is ih =>
    obtain ⟨es, hes⟩ := ih (fun j hj => h j (List.mem_cons_of_mem _ hj))
    have hi := h i (List.mem_cons_self _ _)
    rcases he : entryOfItem i with _ | e
    · rw [he] at hi
      simp at hi
    · exact ⟨e :: es, by simp [parseItems, he, hes]⟩

lemma paginate_complete : ∀ (ps : List Page) (plast : Page),
    (∀ p ∈ ps ++ [plast], ∀ i ∈ p.items, (entryOfItem i).isSome = true) →
    (∀ p ∈ ps, cursorDone p.cursor = false) →
    cursorDone plast.cursor = true →
    ∃ l, paginate (ps ++ [plast]) = some l
      ∧ l.length = ((ps ++ [plast]).map (fun p => p.items.length)).sum := by
  intro ps
  induction ps with
  | nil =>
    intro plast hwf hmid hlast
    obtain ⟨es, hes⟩ := parseItems_isSome plast.items (hwf plast (by simp))
    refine ⟨es, ?_, ?_⟩
    · simp [paginate, hes, hlast]
    · simp [parseItems_length hes]
  | cons p ps ih =>
    intro plast hwf hmid hlast
    simp only [List.cons_append, List.mem_cons] at hwf
    obtain ⟨es, hes⟩ := parseItems_isSome p.items (hwf p (Or.inl rfl))
    obtain ⟨l, hl, hlen⟩ := ih plast (fun q hq => hwf q (Or.inr hq))
      (fun q hq => hmid q (List.mem_cons_of_mem _ hq)) hlast
    have hp : cursorDone p.cursor = false := hmid p (List.mem_cons_self _ _)
    refine ⟨es ++ l, ?_, ?_⟩
    · simp [paginate, hes, hp, hl]
    · simp [parseItems_length hes, hlen]

lemma paginate_isSome_iff (qs : List Page)
    (h : ∀ p ∈ qs, ∀ i ∈ p.items, (entryOfItem i).isSome = true) :
    (paginate qs).isSome = true ↔ ∃ q ∈ qs, cursorDone q.cursor = true := by
  induction qs with
  | nil => simp [paginate]
  | cons p ps ih =>
    obtain ⟨es, hes⟩ := parseItems_isSome p.items (h p (List.mem_cons_self _ _))
    have ih2 := ih (fun q hq => h q (List.mem_cons_of_mem _ hq))
    by_cases hc : cursorDone p.cursor = true
    · have hl : paginate (p :: ps) = some es := by simp [paginate, hes, hc]
      rw [hl]
      simp only [Option.isSome_some, true_iff]
      exact ⟨p, List.mem_cons_self _ _, hc⟩
    · rw [Bool.not_eq_true] at hc
      rcases hps : paginate ps with _ | l <;> rw [hps] at ih2
      · have hl : paginate (p :: ps) = none := by simp [paginate, hes, hc, hps]
        rw [hl]
        simp only [Option.isSome_none, Bool.false_eq_true, false_iff] at ih2 ⊢
        rintro ⟨q, hq, hd⟩
        rcases List.mem_cons.mp hq with rfl | hq2
        · rw [hc] at hd
          cases hd
        · exact ih2 ⟨q, hq2, hd⟩
      · have hl : paginate (p :: ps) = some (es ++ l) := by
          simp [paginate, hes, hc, hps]
        rw [hl]
        simp only [Option.isSome_some, true_iff]
        obtain ⟨q, hq, hd⟩ := ih2.mp (by simp)
        exact ⟨q, List.mem_cons_of_mem _ hq, hd⟩

/-- Claim C2 (amended): for a well-formed finite response sequence whose
last page alone has an absent-or-falsy cursor, the accumulated result
length is the sum of the per-page item counts; and in general the loop
terminates iff some response's cursor is absent or empty. -/
theorem paginate_length_terminates (ps : List Page) (plast : Page)
    (hwf : ∀ p ∈ ps ++ [plast], ∀ i ∈ p.items, (entryOfItem i).isSome = true)
    (hmid : ∀ p ∈ ps, cursorDone p.cursor = false)
    (hlast : cursorDone plast.cursor = true) :
    (∃ l, paginate (ps ++ [plast]) = some l
        ∧ l.length = ((ps ++ [plast]).map (fun p => p.items.length)).sum)
    ∧ ∀ qs : List Page,
        (∀ p ∈ qs, ∀ i ∈ p.items, (entryOfItem i).isSome = true) →
        ((paginate qs).isSome = true ↔ ∃ q ∈ qs, cursorDone q.cursor = true) :=
  ⟨paginate_complete ps plast hwf hmid hlast,
   fun qs h => paginate_isSome_iff qs h⟩

/-- A response carrying an empty-string cursor: present, yet falsy. -/
def pgEmptyCur : Page := { items := [], cursor := some "" }

/-- Counterexample to C2 as stated: the loop terminates on this one-page
sequence although its only response does not omit the cursor field (the
cursor is present but empty). -/
theorem paginate_terminates_no_omitted_cursor :
    (paginate [pgEmptyCur]).isSome = true ∧ pgEmptyCur.cursor = some "" := by
  decide

/-- A well-formed raw item used by concrete pagination runs. -/
def itemX : RawItem :=
  { did := some "did:plc:x", handle := some "x.bsky.social",
    displayName := none, description := none, indexedAt := none }

/-- A first page with one item and a continuation cursor. -/
def pg1 : Page := { items := [itemX], cursor := some "cur1" }

/-- A final page with two items and no cursor. -/
def pg2 : Page := { items := [itemX, itemX], cursor := none }

/-- Witness for C2 at a concrete two-page run. -/
theorem paginate_length_terminates_witness :
    (∃ l, paginate ([pg1] ++ [pg2]) = some l
        ∧ l.length = (([pg1] ++ [pg2]).map (fun p => p.items.length)).sum)
    ∧ ((paginate [pg2]).isSome = true
        ↔ ∃ q ∈ [pg2], cursorDone q.cursor = true) := by
  have h := paginate_length_terminates [pg1] pg2 (by decide) (by decide)
    (by decide)
  exact ⟨h.1, h.2 [pg2] (by decide)⟩

/-- Claim C8: the JSON export carries the subject actor, the profile (or
null when unavailable), the full followers / follows / mutuals lists,
and a stats block whose three counts equal the lengths of those exported
lists. -/
theorem export_json_fields (g : SocialGraph) :
    lookupJ (export_json_data g) "actor" = some (J.str g.actor)
    ∧ lookupJ (export_json_data g) "profile" = some (profileJsonOpt g.profile)
    ∧ lookupJ (export_json_data g) "followers"
        = some (J.arr (g.followers.map entryJson))
    ∧ lookupJ (export_json_data g) "follows"
        = some (J.arr (g.follows.map entryJson))
    ∧ lookupJ (export_json_data g) "mutuals"
        = some (J.arr (g.mutuals.map entryJson))
    ∧ lookupJ (export_json_data g) "stats"
        = some (J.obj
            [("followers_count", J.num (g.followers.map entryJson).length),
             ("follows_count", J.num (g.follows.map entryJson).length),
             ("mutuals_count", J.num (g.mutuals.map entryJson).length)]) := by
  refine ⟨?_, ?_, ?_, ?_, ?_, ?_⟩ <;>
    simp [export_json_data, lookupJ, List.lookup]

lemma loginParse_authenticated (b : RawLogin) (c : ClientState)
    (h : loginParse b = some c) : c.authenticated = true := by
  obtain ⟨jwt, d2, h2⟩ := b
  cases jwt <;> cases d2 <;> cases h2 <;> simp [loginParse] at h
  simp [← h]

lemma paginateGo_req_base (base ep a : String) :
    ∀ (pages : List PageResp) (cur : Option String) (r : Req),
      r ∈ (paginateGo base ep a pages cur).1 →
      ∃ c2, r = Req.listPage base ep a c2 := by
  intro pages
  induction pages with
  | nil =>
    intro cur r hr
    simp [paginateGo] at hr
    exact ⟨cur, hr⟩
  | cons p ps ih =>
    intro cur r hr
    by_cases hs : is2xx p.status
    · rcases hpi : parseItems p.items with _ | es
      · simp [paginateGo, hs, hpi] at hr
        exact ⟨cur, hr⟩
      · by_cases hc : cursorDone p.cursor
        · simp [paginateGo, hs, hpi, hc] at hr
          exact ⟨cur, hr⟩
        · simp [paginateGo, hs, hpi, hc] at hr
          rcases hr with hr | hr
          · exact ⟨cur, hr⟩
          · exact ih p.cursor r hr
    · simp [paginateGo, hs] at hr
      exact ⟨cur, hr⟩

lemma getSocialGraphRun_head (c : ClientState) (svc : Service)
    (actor : String) :
    (getSocialGraphRun c svc actor).1.head?
      = some (Req.getProfile PUBLIC_API actor) := by
  unfold getSocialGraphRun
  by_cases hs : is2xx svc.profileStatus
  · rcases hp : profileOfRaw svc.profileBody with _ | prof
    · simp [hs, hp]
    · rcases h1 : (paginateGo (base_url c) "app.bsky.graph.getFollowers" actor
          svc.followerPages none).2 with e | fers
      · simp [hs, hp, h1]
      · rcases h2 : (paginateGo (base_url c) "app.bsky.graph.getFollows" actor
            svc.followPages none).2 with e | fws
        · simp [hs, hp, h1, h2]
        · simp [hs, hp, h1, h2]
  · simp [hs]

lemma getSocialGraphRun_listPage_base (c : ClientState) (svc : Service)
    (actor : String) (base ep a2 : String) (cur : Option String)
    (hmem : Req.listPage base ep a2 cur ∈ (getSocialGraphRun c svc actor).1) :
    base = base_url c := by
  unfold getSocialGraphRun at hmem
  by_cases hs : is2xx svc.profileStatus
  · rcases hp : profileOfRaw svc.profileBody with _ | prof <;>
      simp [hs, hp, List.mem_cons] at hmem
    rcases h1 : (paginateGo (base_url c) "app.bsky.graph.getFollowers" actor
        svc.followerPages none).2 with e | fers <;>
      simp [h1, List.mem_cons, List.mem_append] at hmem
    · obtain ⟨c2, hc2⟩ := paginateGo_req_base _ _ _ _ _ _ hmem
      cases hc2
      rfl
    · rcases h2 : (paginateGo (base_url c) "app.bsky.graph.getFollows" actor
          svc.followPages none).2 with e | fws <;>
        simp [h2, List.mem_cons, List.mem_append] at hmem <;>
        rcases hmem with hmem | hmem <;>
        · obtain ⟨c2, hc2⟩ := paginateGo_req_base _ _ _ _ _ _ hmem
          cases hc2
          rfl
  · simp [hs] at hmem

lemma clientInit_ok_authenticated (handle password : Option String)
    (svc : Service) (reqs : List Req) (c : ClientState)
    (heq : clientInit handle password svc = (reqs, Except.ok c)) :
    c.authenticated = true ↔ (truthyStr handle && truthyStr password) = true := by
  unfold clientInit at heq
  by_cases hcred : (truthyStr handle && truthyStr password) = true
  · rw [if_pos hcred] at heq
    by_cases hst : is2xx svc.loginStatus
    · rw [if_pos hst] at heq
      rcases hb : loginParse svc.loginBody with _ | c2 <;> rw [hb] at heq <;>
        simp at heq
      rw [← heq.2]
      simp [loginParse_authenticated _ _ hb, hcred]
    · rw [if_neg hst] at heq
      simp at heq
  · rw [if_neg hcred] at heq
    simp at heq
    rw [← heq.2]
    simp [initClient, hcred]

/-- Claim C6: the profile lookup always targets the public base endpoint
whatever the client state, every paginated list request targets
`base_url`, `base_url` is the authenticated endpoint exactly when the
`authenticated` flag is set, and a constructed client has the flag set
exactly when credentials were supplied (and login succeeded). -/
theorem endpoint_selection (c : ClientState) (svc : Service) (actor : String) :
    ((getSocialGraphRun c svc actor).1.head?
        = some (Req.getProfile PUBLIC_API actor))
    ∧ (∀ base ep a2 cur,
        Req.listPage base ep a2 cur ∈ (getSocialGraphRun c svc actor).1 →
        base = base_url c)
    ∧ (base_url c = AUTH_API ↔ c.authenticated = true)
    ∧ (∀ handle password svc2 reqs c2,
        clientInit handle password svc2 = (reqs, Except.ok c2) →
        (c2.authenticated = true
          ↔ (truthyStr handle && truthyStr password) = true)) := by
  refine ⟨getSocialGraphRun_head c svc actor, ?_, ?_, ?_⟩
  · intro base ep a2 cur hmem
    exact getSocialGraphRun_listPage_base c svc actor base ep a2 cur hmem
  · unfold base_url
    cases hb : c.authenticated <;> simp [hb]
    decide
  · intro handle password svc2 reqs c2 heq
    exact clientInit_ok_authenticated handle password svc2 reqs c2 heq

/-- An authenticated client state. -/
def authC : ClientState :=
  { access_token := some "tok", did := some "did:plc:me", authenticated := true }

/-- A service returning a successful login and empty single-page lists. -/
def svcOK : Service :=
  { loginStatus := 200,
    loginBody := { accessJwt := some "tok", did := some "did:plc:me",
                   handle := some "me.bsky.social" },
    profileStatus := 200,
    profileBody := { did := some "did:plc:alice", handle := some "alice.bsky.social",
                     displayName := none, description := none,
                     followersCount := none, followsCount := none,
                     postsCount := none },
    followerPages := [{ status := 200, items := [], cursor := none }],
    followPages := [{ status := 200, items := [], cursor := none }] }

/-- Witness for C6: concrete authenticated run; the follower-list request
in its trace targets the authenticated base URL, and a concrete
successful login yields an authenticated client. -/
theorem endpoint_selection_witness :
    AUTH_API = base_url authC
    ∧ ((ClientState.mk (some "tok") (some "did:plc:me") true).authenticated = true
        ↔ (truthyStr (some "me.bsky.social") && truthyStr (some "secret")) = true) :=
  ⟨(endpoint_selection authC svcOK "alice.bsky.social").2.1 AUTH_API
      "app.bsky.graph.getFollowers" "alice.bsky.social" none (by decide),
   (endpoint_selection authC svcOK "alice.bsky.social").2.2.2
      (some "me.bsky.social") (some "secret") svcOK [Req.createSession]
      (ClientState.mk (some "tok") (some "did:plc:me") true) (by rfl)⟩

/-- Claim C7: when credentials are supplied and the session-creation
response is non-2xx, the run issues only the `createSession` request —
no profile, follower or follow request — and exits with code 1. -/
theorem login_failure_aborts (handle password : Option String)
    (actor : String) (svc : Service)
    (hh : truthyStr handle = true) (hp : truthyStr password = true)
    (hs : is2xx svc.loginStatus = false) :
    mainRun handle password actor svc = ([Req.createSession], 1)
    ∧ ∀ r ∈ (mainRun handle password actor svc).1, r = Req.createSession := by
  have h1 : clientInit handle password svc
      = ([Req.createSession], Except.error Fail.http) := by
    unfold clientInit
    rw [hh, hp, hs]
    simp
  have h2 : mainRun handle password actor svc = ([Req.createSession], 1) := by
    unfold mainRun
    rw [h1]
  refine ⟨h2, ?_⟩
  rw [h2]
  intro r hr
  simpa using hr

/-- A service whose login endpoint answers 400. -/
def svcBadLogin : Service :=
  { loginStatus := 400,
    loginBody := { accessJwt := none, did := none, handle := none },
    profileStatus := 200,
    profileBody := { did := some "did:plc:alice", handle := some "alice.bsky.social",
                     displayName := none, description := none,
                     followersCount := none, followsCount := none,
                     postsCount := none },
    followerPages := [{ status := 200, items := [], cursor := none }],
    followPages := [{ status := 200, items := [], cursor := none }] }

/-- Witness for C7: concrete failing login, credentials supplied. -/
theorem login_failure_aborts_witness :
    mainRun (some "me.bsky.social") (some "secret") "alice.bsky.social"
      svcBadLogin = ([Req.createSession], 1) :=
  (login_failure_aborts (some "me.bsky.social") (some "secret")
    "alice.bsky.social" svcBadLogin (by decide) (by decide) (by decide)).1
